import Mathlib

/-!
Shallow embedding of the two client modules of the ostium-python-sdk
repository:

* `ostium_python_sdk/subgraph.py` — the `SubgraphClient` class: lazy
  memoized GQL client construction, the retry-once-on-stale-transport
  execution wrapper `_execute_query`, and the per-query result reshaping
  (`get_pair_details`, `get_recent_history`, `get_order_by_id`,
  `get_trade_by_id`).
* `ostium_python_sdk/price.py` — the `Price` class: `get_latest_prices`
  with its TLS-certificate-failure fallback, and the lookup helpers
  `get_latest_price_json` and `get_price`.

Python values delivered by the transports are modelled by the inductive
`PyVal`; dictionaries are association lists `List (String × PyVal)`;
raised exceptions are modelled by `PyErr`.  Network I/O is modelled by
oracles: each call site receives the outcome the network would produce
for each successive attempt, so the control flow around those outcomes
(retries, fallbacks, wrapping of exceptions) is exactly the source's.

Python's `float(...)` conversion is modelled value-preservingly
(`Decimal q ↦ Float q` on the same rational): the claims under study
concern only which fields are converted and to which runtime kind,
never floating-point rounding.
-/

/-! ## Generic string helpers (Python's `in` on strings) -/

/-- `needle` occurs at the front of `hay` (character lists). -/
def strLeads : List Char → List Char → Bool
  | _, [] => true
  | [], _ :: _ => false
  | a :: as, b :: bs => a == b && strLeads as bs

/-- `needle` occurs somewhere inside `hay` (character lists). -/
def strHas : List Char → List Char → Bool
  | [], needle => needle.isEmpty
  | a :: as, needle => strLeads (a :: as) needle || strHas as needle

/-- Python's `needle in hay` for strings. -/
def strContains (hay needle : String) : Bool :=
  strHas hay.toList needle.toList

/-! ## Python runtime values and exceptions -/

/-- A Python runtime value as delivered by the JSON / GraphQL transports:
`None`, strings, ints, bools, `decimal.Decimal`, `float`, dicts and
lists.  `Decimal` and `float` both carry their exact value as a rational;
they differ only in runtime kind, which is all the claims depend on. -/
inductive PyVal where
  | vNone : PyVal
  | vStr (s : String) : PyVal
  | vInt (n : Int) : PyVal
  | vBool (b : Bool) : PyVal
  | vDecimal (q : Rat) : PyVal
  | vFloat (q : Rat) : PyVal
  | vDict (fields : List (String × PyVal)) : PyVal
  | vList (items : List PyVal) : PyVal

/-- A raised Python exception, by class and message. -/
inductive PyErr where
  | exc (msg : String) : PyErr
  | valueError (msg : String) : PyErr
  | attributeError (msg : String) : PyErr
  | typeError (msg : String) : PyErr
  | certificateError (msg : String) : PyErr
deriving DecidableEq

/-- Python's `str(e)` on an exception: its message. -/
def PyErr.message : PyErr → String
  | .exc m => m
  | .valueError m => m
  | .attributeError m => m
  | .typeError m => m
  | .certificateError m => m

/-- Dictionary key lookup (`d[k]` / `d.get(k)`), first binding wins. -/
def lookupKV : List (String × PyVal) → String → Option PyVal
  | [], _ => none
  | (k, v) :: rest, key => if k == key then some v else lookupKV rest key

/-- Python's `d.get(k, dflt)`. -/
def getKV (d : List (String × PyVal)) (k : String) (dflt : PyVal) : PyVal :=
  (lookupKV d k).getD dflt

/-! ## SubgraphClient: lazy client construction and `_execute_query` -/

/-- The GQL `Client` object as constructed by `_get_client`:
`Client(transport=AIOHTTPTransport(url=self.url),
fetch_schema_from_transport=True, execute_timeout=None)`. -/
structure GQLClient where
  url : String
  fetch_schema_from_transport : Bool
  execute_timeout : Option Nat
deriving DecidableEq

/-- The client freshly built by `_get_client` for a given endpoint URL. -/
def mkGQLClient (url : String) : GQLClient :=
  { url := url, fetch_schema_from_transport := true, execute_timeout := none }

/-- `SubgraphClient._get_client`: get-or-create on the cached
`self._client`.  Returns the client handed to the caller together with
the new value of the cache. -/
def get_client (url : String) (cached : Option GQLClient) :
    GQLClient × Option GQLClient :=
  match cached with
  | none => (mkGQLClient url, some (mkGQLClient url))
  | some c => (c, some c)

/-- The stale-transport test of `_execute_query`:
`"Transport is already connected" in str(e) or "already connected" in str(e)`. -/
def isTransportConnectedError (msg : String) : Bool :=
  strContains msg "Transport is already connected" ||
    strContains msg "already connected"

/-- Outcome of one `client.execute_async` attempt: a result or a raised
exception (only its message is inspected by the source). -/
inductive ExecOutcome (R : Type) where
  | ok (r : R) : ExecOutcome R
  | raised (msg : String) : ExecOutcome R

/-- One `execute_async` attempt as issued: which client object, which
query document, which `variable_values`. -/
structure ExecAttempt (Q V : Type) where
  client : GQLClient
  query : Q
  vars : V
deriving DecidableEq

/-- `SubgraphClient._execute_query` (body under the lock).  `oracle n` is
the outcome the transport produces for the n-th `execute_async` attempt
of this call.  Returns the result (or the propagated exception message),
the new value of `self._client`, and the list of attempts issued. -/
def execute_query {Q V R : Type} (url : String) (cached : Option GQLClient)
    (q : Q) (v : V) (oracle : Nat → ExecOutcome R) :
    Except String R × Option GQLClient × List (ExecAttempt Q V) :=
  let client := (get_client url cached).1
  let st₁ := (get_client url cached).2
  match oracle 0 with
  | .ok r => (.ok r, st₁, [⟨client, q, v⟩])
  | .raised msg =>
    if isTransportConnectedError msg then
      -- `self._client = None` then `client = await self._get_client()`
      let client₂ := (get_client url none).1
      let st₂ := (get_client url none).2
      match oracle 1 with
      | .ok r => (.ok r, st₂, [⟨client, q, v⟩, ⟨client₂, q, v⟩])
      | .raised m₂ => (.error m₂, st₂, [⟨client, q, v⟩, ⟨client₂, q, v⟩])
    else
      (.error msg, st₁, [⟨client, q, v⟩])

/-! ## SubgraphClient: result reshaping of the query methods -/

/-- The decimal normalization loop of `get_pair_details`:
`for key, value in pair.items(): if isinstance(value, Decimal):
pair[key] = float(value)`.  It inspects only the top-level binding;
nested dicts are not Decimals, so they pass through untouched. -/
def convert_decimal_field : String × PyVal → String × PyVal
  | (k, .vDecimal q) => (k, .vFloat q)
  | (k, v) => (k, v)

/-- Result post-processing of `get_pair_details` (everything after
`_execute_query` returns).  `result` is the dict returned by the
transport (`none` models a `None` result).  Mirrors
`if result and 'pair' in result: ... else: raise ValueError(...)`,
including the `pair.items()` call, which raises `AttributeError` when
`result['pair']` is not a dict (in particular when it is `None`). -/
def get_pair_details_post (pair_id : String)
    (result : Option (List (String × PyVal))) : Except PyErr PyVal :=
  match result with
  | none => .error (.valueError ("No pair details found for pair ID: " ++ pair_id))
  | some d =>
    if d.isEmpty then
      .error (.valueError ("No pair details found for pair ID: " ++ pair_id))
    else
      match lookupKV d "pair" with
      | none => .error (.valueError ("No pair details found for pair ID: " ++ pair_id))
      | some (.vDict fields) => .ok (.vDict (fields.map convert_decimal_field))
      | some _ => .error (.attributeError "object has no attribute items")

/-- The request parameters of the `ListOrdersHistory` query document as
`get_recent_history` issues it: `where: {trader, isPending: false}`,
`first: $last_n_orders`, `orderBy: executedAt`, `orderDirection: desc`. -/
structure HistoryRequest where
  trader : String
  firstN : Int
  pendingFilter : Bool
  orderByField : String
  orderDirection : String
deriving DecidableEq

/-- The request built by `get_recent_history(trader, last_n_orders)`. -/
def recent_history_request (trader : String) (last_n_orders : Int) :
    HistoryRequest :=
  { trader := trader, firstN := last_n_orders, pendingFilter := false,
    orderByField := "executedAt", orderDirection := "desc" }

/-- Result reshaping of `get_recent_history`:
`return list(reversed(result['orders']))`. -/
def get_recent_history_post {α : Type} (orders : List α) : List α :=
  orders.reverse

/-- Result post-processing of `get_order_by_id`:
`if result and 'orders' in result and len(result['orders']) > 0:
return result['orders'][0]` else `return None`.  A non-list value under
the key is outside the query's contract and modelled as the `TypeError`
Python's `len` would raise on a value without a length. -/
def get_order_by_id_post (result : Option (List (String × PyVal))) :
    Except PyErr (Option PyVal) :=
  match result with
  | none => .ok none
  | some d =>
    if d.isEmpty then .ok none
    else
      match lookupKV d "orders" with
      | none => .ok none
      | some (.vList []) => .ok none
      | some (.vList (x :: _)) => .ok (some x)
      | some _ => .error (.typeError "object has no len")

/-- Result post-processing of `get_trade_by_id`: identical shape to
`get_order_by_id` with the `trades` key. -/
def get_trade_by_id_post (result : Option (List (String × PyVal))) :
    Except PyErr (Option PyVal) :=
  match result with
  | none => .ok none
  | some d =>
    if d.isEmpty then .ok none
    else
      match lookupKV d "trades" with
      | none => .ok none
      | some (.vList []) => .ok none
      | some (.vList (x :: _)) => .ok (some x)
      | some _ => .error (.typeError "object has no len")

/-! ## Price client: TLS contexts and `get_latest_prices` -/

/-- `ssl` certificate verification modes. -/
inductive VerifyMode where
  | CERT_NONE : VerifyMode
  | CERT_OPTIONAL : VerifyMode
  | CERT_REQUIRED : VerifyMode
deriving DecidableEq

/-- The TLS trust policy of an `ssl.SSLContext` as far as the source
manipulates it: hostname checking and certificate verification mode. -/
structure SSLContextM where
  check_hostname : Bool
  verify_mode : VerifyMode
deriving DecidableEq

/-- `ssl.create_default_context()`: hostname checking on, certificates
required. -/
def create_default_context : SSLContextM :=
  { check_hostname := true, verify_mode := .CERT_REQUIRED }

/-- `ssl.SSLContext(ssl.PROTOCOL_TLS_CLIENT)`: hostname checking on,
certificates required (the protocol's defaults). -/
def sslContext_TLS_CLIENT : SSLContextM :=
  { check_hostname := true, verify_mode := .CERT_REQUIRED }

/-- The context of the primary attempt of `get_latest_prices`:
`create_default_context()` then `check_hostname = False`,
`verify_mode = CERT_NONE`. -/
def primary_ssl_context : SSLContextM :=
  { create_default_context with check_hostname := false, verify_mode := .CERT_NONE }

/-- The context of the fallback attempt: `SSLContext(PROTOCOL_TLS_CLIENT)`
then `check_hostname = False`, `verify_mode = CERT_NONE`. -/
def fallback_ssl_context : SSLContextM :=
  { sslContext_TLS_CLIENT with check_hostname := false, verify_mode := .CERT_NONE }

/-- One HTTP GET as issued by `get_latest_prices`: target URL, TLS
context of the connector, total timeout in seconds. -/
structure FetchAttempt where
  url : String
  ssl : SSLContextM
  timeout_total : Nat
deriving DecidableEq

/-- Outcome the network produces for one GET attempt: an HTTP response
with a status and parsed JSON body, or a raised exception. -/
inductive NetOutcome (α : Type) where
  | response (status : Nat) (body : α) : NetOutcome α
  | raised (e : PyErr) : NetOutcome α

/-- `Price.get_latest_prices`.  `primary` and `fallback` are the
outcomes the network would produce for the primary and (if reached) the
fallback GET.  Returns the parsed body or the raised exception, and the
list of GET attempts actually issued.  Faithful to Python's exception
routing: an exception raised inside the `try` block — including the
`Exception("Failed to fetch prices: ...")` raised on a non-200 primary
status — is matched against the `except` clauses in order, so a non-cert
exception is re-raised as `Exception("Error fetching prices: " + str(e))`;
exceptions raised inside the cert-error handler propagate unmodified. -/
def get_latest_prices {α : Type} (base_url : String)
    (primary fallback : NetOutcome α) :
    Except PyErr α × List FetchAttempt :=
  let url := base_url ++ "/PricePublish/latest-prices"
  let att₁ : FetchAttempt := ⟨url, primary_ssl_context, 30⟩
  let att₂ : FetchAttempt := ⟨url, fallback_ssl_context, 30⟩
  match primary with
  | .response s b =>
    if s == 200 then (.ok b, [att₁])
    else
      -- raised in the try block, caught by `except Exception`, re-wrapped
      (.error (.exc ("Error fetching prices: " ++
        "Failed to fetch prices: " ++ toString s)), [att₁])
  | .raised e =>
    match e with
    | .certificateError _ =>
      -- `except aiohttp.ClientConnectorCertificateError`: fallback GET
      (match fallback with
       | .response s b =>
         if s == 200 then (.ok b, [att₁, att₂])
         else (.error (.exc ("Failed to fetch prices: " ++ toString s)),
               [att₁, att₂])
       | .raised e₂ => (.error e₂, [att₁, att₂]))
    | _ =>
      -- `except Exception as e`: wrap and re-raise
      (.error (.exc ("Error fetching prices: " ++ e.message)), [att₁])

/-! ## Price client: lookup helpers -/

/-- Python's `price_data.get(k) == asset` where `asset` is a string: a
missing key gives `None`, which never equals a string; a non-string
value never equals a string either. -/
def optEqStr : Option PyVal → String → Bool
  | some (.vStr s), t => s == t
  | _, _ => false

/-- The scan condition of both lookup helpers:
`price_data.get('from') == from_asset and price_data.get('to') == to_asset`. -/
def price_match (from_asset to_asset : String)
    (r : List (String × PyVal)) : Bool :=
  optEqStr (lookupKV r "from") from_asset && optEqStr (lookupKV r "to") to_asset

/-- `Price.get_latest_price_json` after the fetch: linear scan of the
batch, first exact match returned unchanged, else
`ValueError("No price found for pair: from/to")`. -/
def get_latest_price_json (prices : List (List (String × PyVal)))
    (from_asset to_asset : String) :
    Except PyErr (List (String × PyVal)) :=
  match prices with
  | [] => .error (.valueError
      ("No price found for pair: " ++ from_asset ++ "/" ++ to_asset))
  | r :: rest =>
    if price_match from_asset to_asset r then .ok r
    else get_latest_price_json rest from_asset to_asset

/-- Python's `float(x)` on the values this code can feed it.  Numeric
kinds convert value-preservingly (the claims depend only on the runtime
kind); a string the claims never exercise is modelled as the parse
error, `None` and containers as the `TypeError` Python raises. -/
def pyFloat : PyVal → Except PyErr Rat
  | .vInt n => .ok n
  | .vDecimal q => .ok q
  | .vFloat q => .ok q
  | .vBool b => .ok (if b then 1 else 0)
  | .vStr _ => .error (.valueError "could not convert string to float")
  | .vNone => .error (.typeError "float argument must be a number, not NoneType")
  | .vDict _ => .error (.typeError "float argument must be a number, not dict")
  | .vList _ => .error (.typeError "float argument must be a number, not list")

/-- `Price.get_price` after the fetch: same scan, projecting
`(float(r.get('mid', 0)), r.get('isMarketOpen', False),
r.get('isDayTradingClosed', False))` from the first match, else
`ValueError`. -/
def get_price (prices : List (List (String × PyVal)))
    (from_currency to_currency : String) :
    Except PyErr (Rat × PyVal × PyVal) :=
  match prices with
  | [] => .error (.valueError
      ("No price found for pair: " ++ from_currency ++ "/" ++ to_currency))
  | r :: rest =>
    if price_match from_currency to_currency r then
      match pyFloat (getKV r "mid" (.vInt 0)) with
      | .ok m => .ok (m, getKV r "isMarketOpen" (.vBool false),
                      getKV r "isDayTradingClosed" (.vBool false))
      | .error e => .error e
    else get_price rest from_currency to_currency

/-! ## Theorems -/

/-- C1: if the first `execute_async` attempt of `_execute_query` raises
an error whose message indicates the already-connected condition, the
call performs exactly one recreation-and-retry cycle — it issues exactly
two attempts, the second against a freshly constructed client (the
cached client having been set to absent and rebuilt) with the same query
and the same variables, and the cache afterwards holds the fresh client;
the second attempt's outcome, success or failure of any kind, is
returned/propagated unmodified.  If the message does not indicate the
already-connected condition, exactly one attempt is issued, the error
propagates immediately, and the cached client is not invalidated. -/
theorem execute_query_retry_once {Q V R : Type} (url : String)
    (cached : Option GQLClient) (q : Q) (v : V)
    (oracle : Nat → ExecOutcome R) (msg : String)
    (h₀ : oracle 0 = .raised msg) :
    (isTransportConnectedError msg = true →
      (execute_query url cached q v oracle).2.2 =
        [⟨(get_client url cached).1, q, v⟩, ⟨mkGQLClient url, q, v⟩] ∧
      (execute_query url cached q v oracle).2.1 = some (mkGQLClient url) ∧
      (∀ r, oracle 1 = .ok r → (execute_query url cached q v oracle).1 = .ok r) ∧
      (∀ m₂, oracle 1 = .raised m₂ →
        (execute_query url cached q v oracle).1 = .error m₂)) ∧
    (isTransportConnectedError msg = false →
      (execute_query url cached q v oracle).2.2 =
        [⟨(get_client url cached).1, q, v⟩] ∧
      (execute_query url cached q v oracle).1 = .error msg ∧
      (∀ c, cached = some c → (execute_query url cached q v oracle).2.1 = some c)) := by
  constructor
  · intro hmatch
    refine ⟨?_, ?_, ?_, ?_⟩
    · cases h₁ : oracle 1 <;>
        simp [execute_query, h₀, hmatch, h₁, get_client, mkGQLClient]
    · cases h₁ : oracle 1 <;>
        simp [execute_query, h₀, hmatch, h₁, get_client, mkGQLClient]
    · intro r h₁
      simp [execute_query, h₀, hmatch, h₁]
    · intro m₂ h₁
      simp [execute_query, h₀, hmatch, h₁]
  · intro hnomatch
    refine ⟨?_, ?_, ?_⟩
    · simp [execute_query, h₀, hnomatch]
    · simp [execute_query, h₀, hnomatch]
    · intro c hc
      simp [execute_query, h₀, hnomatch, hc, get_client]

/-- Witness for C1: a first attempt raising
"Transport is already connected" followed by a second attempt raising
"boom" yields exactly two attempts with the same query and variables and
propagates "boom" unmodified. -/
theorem execute_query_retry_once_witness :
    0 < 1 ∧
    ((execute_query (R := Nat) "u" none "Q" "V"
        (fun n => if n = 0 then .raised "Transport is already connected"
                  else .raised "boom")).2.2 =
      [⟨mkGQLClient "u", "Q", "V"⟩, ⟨mkGQLClient "u", "Q", "V"⟩] ∧
     (execute_query (R := Nat) "u" none "Q" "V"
        (fun n => if n = 0 then .raised "Transport is already connected"
                  else .raised "boom")).1 = .error "boom") := by
  refine ⟨Nat.zero_lt_one, ?_⟩
  have h := (execute_query_retry_once (R := Nat) "u" none "Q" "V"
    (fun n => if n = 0 then .raised "Transport is already connected"
              else .raised "boom")
    "Transport is already connected" rfl).1 (by decide)
  exact ⟨h.1, h.2.2.2 "boom" rfl⟩

/-- C7: `get_recent_history` returns the exact reversal of the page the
backing query delivers; given the query's contract (at most
`last_n_orders` entries, ordered by execution time descending), the
returned list has at most `last_n_orders` entries and is in ascending
chronological order (oldest of the page first).  The issued request
indeed asks for descending `executedAt` order with `first` set to the
limit. -/
theorem get_recent_history_ascending {α : Type} (trader : String)
    (n : Int) (bound : Nat) (page : List (Int × α))
    (hlen : page.length ≤ bound)
    (hdesc : page.Pairwise (fun a b => b.1 ≤ a.1)) :
    get_recent_history_post page = page.reverse ∧
    (get_recent_history_post page).length ≤ bound ∧
    (get_recent_history_post page).Pairwise (fun a b => a.1 ≤ b.1) ∧
    (recent_history_request trader n).orderByField = "executedAt" ∧
    (recent_history_request trader n).orderDirection = "desc" ∧
    (recent_history_request trader n).firstN = n := by
  refine ⟨rfl, ?_, ?_, rfl, rfl, rfl⟩
  · simpa [get_recent_history_post] using hlen
  · simpa [get_recent_history_post, List.pairwise_reverse] using hdesc

/-- Witness for C7: a three-entry descending page with limit 5 comes
back reversed, ascending, with at most 5 entries. -/
theorem get_recent_history_ascending_witness :
    get_recent_history_post [((3 : Int), "c"), (2, "b"), (1, "a")] =
      [((1 : Int), "a"), (2, "b"), (3, "c")] ∧
    (get_recent_history_post [((3 : Int), "c"), (2, "b"), (1, "a")]).length ≤ 5 ∧
    (get_recent_history_post
        [((3 : Int), "c"), (2, "b"), (1, "a")]).Pairwise (fun a b => a.1 ≤ b.1) := by
  have h := get_recent_history_ascending "trader" 5 5
    [((3 : Int), "c"), (2, "b"), (1, "a")] (by decide)
    (by decide)
  exact ⟨h.1, h.2.1, h.2.2.1⟩

/-- C8: when the query result carries the records list, `get_order_by_id`
and `get_trade_by_id` return (not raise) the head of that list as an
optional value: an absent result for zero matches, the sole matching
record for exactly one match — absence is a normal return, distinguishable
from a failure. -/
theorem get_by_id_absent_or_single (dOrders dTrades : List (String × PyVal))
    (xs ys : List PyVal)
    (hdo : dOrders.isEmpty = false)
    (ho : lookupKV dOrders "orders" = some (.vList xs))
    (hdt : dTrades.isEmpty = false)
    (ht : lookupKV dTrades "trades" = some (.vList ys)) :
    get_order_by_id_post (some dOrders) = .ok xs.head? ∧
    get_trade_by_id_post (some dTrades) = .ok ys.head? := by
  constructor
  · cases xs <;> simp [get_order_by_id_post, hdo, ho]
  · cases ys <;> simp [get_trade_by_id_post, hdt, ht]

/-- C2: a TLS certificate-validation failure on the primary GET of
`get_latest_prices` triggers exactly one fallback GET, to the same URL,
with certificate validation disabled (`CERT_NONE`); a raised exception
that is not a certificate-validation failure never triggers the
fallback (one attempt only); and a non-200 status on the fallback
attempt fails rather than retrying again (still exactly two attempts). -/
theorem get_latest_prices_cert_fallback {α : Type} (base_url : String)
    (primary fallback : NetOutcome α) :
    (∀ m, primary = .raised (.certificateError m) →
      (get_latest_prices base_url primary fallback).2 =
        [⟨base_url ++ "/PricePublish/latest-prices", primary_ssl_context, 30⟩,
         ⟨base_url ++ "/PricePublish/latest-prices", fallback_ssl_context, 30⟩] ∧
      fallback_ssl_context.verify_mode = .CERT_NONE ∧
      (∀ s b, fallback = .response s b → s ≠ 200 →
        (get_latest_prices base_url primary fallback).1 =
          .error (.exc ("Failed to fetch prices: " ++ toString s)) ∧
        (get_latest_prices base_url primary fallback).2.length = 2)) ∧
    (∀ e, primary = .raised e → (∀ m, e ≠ .certificateError m) →
      (get_latest_prices base_url primary fallback).2 =
        [⟨base_url ++ "/PricePublish/latest-prices", primary_ssl_context, 30⟩]) := by
  constructor
  · intro m hp
    subst hp
    refine ⟨?_, rfl, ?_⟩
    · cases fallback with
      | response s b =>
        by_cases h : s = 200 <;> simp [get_latest_prices, h]
      | raised e₂ => simp [get_latest_prices]
    · intro s b hf hs
      subst hf
      simp [get_latest_prices, hs]
  · intro e hp hne
    subst hp
    cases e with
    | certificateError m => exact absurd rfl (hne m)
    | exc m => simp [get_latest_prices]
    | valueError m => simp [get_latest_prices]
    | attributeError m => simp [get_latest_prices]
    | typeError m => simp [get_latest_prices]

/-- Witness for C2: a certificate failure on the primary attempt with a
500 on the fallback yields exactly two attempts, the second with
validation disabled, and fails without a third attempt. -/
theorem get_latest_prices_cert_fallback_witness :
    (get_latest_prices (α := Nat) "https://metadata-backend.ostium.io"
        (.raised (.certificateError "self signed")) (.response 500 0)).2 =
      [⟨"https://metadata-backend.ostium.io/PricePublish/latest-prices",
        primary_ssl_context, 30⟩,
       ⟨"https://metadata-backend.ostium.io/PricePublish/latest-prices",
        fallback_ssl_context, 30⟩] ∧
    (get_latest_prices (α := Nat) "https://metadata-backend.ostium.io"
        (.raised (.certificateError "self signed")) (.response 500 0)).1 =
      .error (.exc "Failed to fetch prices: 500") := by
  have h := (get_latest_prices_cert_fallback (α := Nat)
    "https://metadata-backend.ostium.io"
    (.raised (.certificateError "self signed")) (.response 500 0)).1
    "self signed" rfl
  exact ⟨h.1, (h.2.2 500 0 rfl (by decide)).1⟩

/-- C3: the primary attempt of `get_latest_prices` already runs with
hostname checking off and verification mode `CERT_NONE`, so its TLS
trust policy equals the fallback attempt's — the fallback never relaxes
validation relative to the primary. -/
theorem get_latest_prices_primary_tls_policy {α : Type} (base_url : String)
    (primary fallback : NetOutcome α) :
    ((get_latest_prices base_url primary fallback).2.head?).map FetchAttempt.ssl =
      some primary_ssl_context ∧
    primary_ssl_context.check_hostname = false ∧
    primary_ssl_context.verify_mode = .CERT_NONE ∧
    primary_ssl_context = fallback_ssl_context := by
  refine ⟨?_, rfl, rfl, rfl⟩
  cases primary with
  | response s b =>
    by_cases h : s = 200 <;> simp [get_latest_prices, h]
  | raised e =>
    cases e with
    | certificateError m =>
      cases fallback with
      | response s b => by_cases h : s = 200 <;> simp [get_latest_prices, h]
      | raised e₂ => simp [get_latest_prices]
    | exc m => simp [get_latest_prices]
    | valueError m => simp [get_latest_prices]
    | attributeError m => simp [get_latest_prices]
    | typeError m => simp [get_latest_prices]

/-- Counterexample for C4: a 500 on the primary attempt does not produce
the bare `Failed to fetch prices: 500` error — the `Exception` raised in
the `try` block is caught by the blanket `except Exception` clause and
re-wrapped as `Error fetching prices: ...`, contradicting the claim that
the non-200 failure is not re-wrapped into the generic transport-fault
error. -/
theorem get_latest_prices_non200_wrapped_cex :
    (get_latest_prices (α := Nat) "https://metadata-backend.ostium.io"
        (.response 500 0) (.response 200 0)).1 =
      .error (.exc "Error fetching prices: Failed to fetch prices: 500") ∧
    (get_latest_prices (α := Nat) "https://metadata-backend.ostium.io"
        (.response 500 0) (.response 200 0)).1 ≠
      .error (.exc "Failed to fetch prices: 500") := by
  refine ⟨rfl, ?_⟩
  intro h
  have h₂ := Except.error.inj (rfl.trans h)
  have h₃ : "Error fetching prices: Failed to fetch prices: 500" =
      "Failed to fetch prices: 500" := PyErr.exc.inj h₂
  exact absurd h₃ (by decide)

/-- C4 (amended): a non-200 status on the primary attempt raises the
`Failed to fetch prices: status` exception inside the `try` block, and
the blanket generic handler immediately re-wraps it, so the caller
receives `Error fetching prices: Failed to fetch prices: status` — the
non-200 failure IS re-wrapped into the generic wrapper, remaining
distinguishable from other transport faults only by its embedded
message; only a non-200 on the fallback attempt surfaces as the
unwrapped `Failed to fetch prices: status` error. -/
theorem get_latest_prices_non200_routing {α : Type} (base_url : String)
    (primary fallback : NetOutcome α) (s : Nat) (b : α) :
    (primary = .response s b → s ≠ 200 →
      (get_latest_prices base_url primary fallback).1 =
        .error (.exc ("Error fetching prices: " ++
          "Failed to fetch prices: " ++ toString s)) ∧
      (get_latest_prices base_url primary fallback).2.length = 1) ∧
    (∀ m, primary = .raised (.certificateError m) → fallback = .response s b →
      s ≠ 200 →
      (get_latest_prices base_url primary fallback).1 =
        .error (.exc ("Failed to fetch prices: " ++ toString s))) := by
  constructor
  · intro hp hs
    subst hp
    simp [get_latest_prices, hs]
  · intro m hp hf hs
    subst hp; subst hf
    simp [get_latest_prices, hs]

/-- Witness for the amended C4: primary 500 yields the wrapped message
in one attempt; a cert failure followed by a fallback 503 yields the
unwrapped message. -/
theorem get_latest_prices_non200_routing_witness :
    (get_latest_prices (α := Nat) "https://x" (.response 500 0)
        (.response 200 0)).1 =
      .error (.exc "Error fetching prices: Failed to fetch prices: 500") ∧
    (get_latest_prices (α := Nat) "https://x"
        (.raised (.certificateError "bad")) (.response 503 0)).1 =
      .error (.exc "Failed to fetch prices: 503") := by
  constructor
  · exact ((get_latest_prices_non200_routing (α := Nat) "https://x"
      (.response 500 0) (.response 200 0) 500 0).1 rfl (by decide)).1
  · exact (get_latest_prices_non200_routing (α := Nat) "https://x"
      (.raised (.certificateError "bad")) (.response 503 0) 503 0).2
      "bad" rfl rfl (by decide)

/-- C5: the standard GraphQL encoding of a missing pair is a result that
carries the requested key with a null value, `{"pair": null}`.  On that
result `get_pair_details` takes the then-branch and calls `.items()` on
`None`, raising `AttributeError` — not the intended
`ValueError("No pair details found for pair ID: ...")`, which is reached
only when the result is falsy or lacks the `pair` key altogether. -/
theorem get_pair_details_null_pair_bug :
    get_pair_details_post "42" (some [("pair", .vNone)]) =
      .error (.attributeError "object has no attribute items") ∧
    get_pair_details_post "42" (some [("pair", .vNone)]) ≠
      .error (.valueError "No pair details found for pair ID: 42") ∧
    get_pair_details_post "42" (some []) =
      .error (.valueError "No pair details found for pair ID: 42") := by
  refine ⟨rfl, ?_, rfl⟩
  intro h
  have h₂ := Except.error.inj (rfl.trans h)
  exact PyErr.noConfusion h₂

/-- Counterexample for C6: the decimal normalization of
`get_pair_details` is shallow — a decimal inside the nested `group`
sub-record is NOT converted to a float, contradicting the claim that
every originally-decimal field including those in the nested group and
fee sub-records is converted. -/
theorem get_pair_details_nested_decimal_cex :
    get_pair_details_post "1"
      (some [("pair", .vDict
        [("longOI", .vDecimal 5),
         ("group", .vDict [("minLeverage", .vDecimal 2)]),
         ("fee", .vDict [("minLevPos", .vDecimal 3)])])]) =
      .ok (.vDict
        [("longOI", .vFloat 5),
         ("group", .vDict [("minLeverage", .vDecimal 2)]),
         ("fee", .vDict [("minLevPos", .vDecimal 3)])]) ∧
    PyVal.vDecimal 2 ≠ PyVal.vFloat 2 := by
  refine ⟨rfl, ?_⟩
  intro h
  exact PyVal.noConfusion h

/-- The normalization loop preserves every key in order. -/
theorem convert_decimal_field_keys (fields : List (String × PyVal)) :
    (fields.map convert_decimal_field).map Prod.fst = fields.map Prod.fst := by
  induction fields with
  | nil => rfl
  | cons p rest ih =>
    obtain ⟨k, v⟩ := p
    cases v <;> simp [convert_decimal_field, ih]

/-- C6 (amended): when the result carries a pair record,
`get_pair_details` returns it with every TOP-LEVEL decimal field
converted to a float and every top-level non-decimal field — including
the nested `group`/`fee` sub-records, whose inner decimals stay decimals
— unchanged; no field is dropped or renamed. -/
theorem get_pair_details_top_level_normalization (pair_id : String)
    (d fields : List (String × PyVal))
    (hd : d.isEmpty = false)
    (hp : lookupKV d "pair" = some (.vDict fields)) :
    get_pair_details_post pair_id (some d) =
      .ok (.vDict (fields.map convert_decimal_field)) ∧
    (fields.map convert_decimal_field).map Prod.fst = fields.map Prod.fst ∧
    (∀ k q, (k, PyVal.vDecimal q) ∈ fields →
      (k, PyVal.vFloat q) ∈ fields.map convert_decimal_field) ∧
    (∀ k v, (k, v) ∈ fields → (∀ q, v ≠ PyVal.vDecimal q) →
      (k, v) ∈ fields.map convert_decimal_field) := by
  refine ⟨?_, convert_decimal_field_keys fields, ?_, ?_⟩
  · simp [get_pair_details_post, hd, hp]
  · intro k q hmem
    exact List.mem_map_of_mem convert_decimal_field hmem
  · intro k v hmem hne
    have h := List.mem_map_of_mem convert_decimal_field hmem
    cases v with
    | vDecimal q => exact absurd rfl (hne q)
    | vNone => exact h
    | vStr s => exact h
    | vInt n => exact h
    | vBool b => exact h
    | vFloat q => exact h
    | vDict f => exact h
    | vList l => exact h

/-- Witness for the amended C6: a pair with one top-level decimal, one
string field and a nested group decimal is returned with the top-level
decimal floated, the string untouched and the nested decimal untouched. -/
theorem get_pair_details_top_level_normalization_witness :
    get_pair_details_post "7"
      (some [("pair", .vDict
        [("id", .vStr "7"), ("longOI", .vDecimal 5),
         ("group", .vDict [("minLeverage", .vDecimal 2)])])]) =
      .ok (.vDict
        [("id", .vStr "7"), ("longOI", .vFloat 5),
         ("group", .vDict [("minLeverage", .vDecimal 2)])]) := by
  have h := (get_pair_details_top_level_normalization "7"
    [("pair", .vDict
      [("id", .vStr "7"), ("longOI", .vDecimal 5),
       ("group", .vDict [("minLeverage", .vDecimal 2)])])]
    [("id", .vStr "7"), ("longOI", .vDecimal 5),
     ("group", .vDict [("minLeverage", .vDecimal 2)])] rfl rfl).1
  exact h

/-- Witness for C8: an empty `orders` list yields an absent result, a
singleton `trades` list yields its sole record. -/
theorem get_by_id_absent_or_single_witness :
    get_order_by_id_post (some [("orders", .vList [])]) = .ok none ∧
    get_trade_by_id_post (some [("trades", .vList [.vStr "t1"])]) =
      .ok (some (.vStr "t1")) := by
  have h := get_by_id_absent_or_single [("orders", .vList [])]
    [("trades", .vList [.vStr "t1"])] [] [.vStr "t1"] rfl rfl rfl rfl
  exact ⟨h.1, h.2⟩

/-- The scan condition holds exactly when both string fields are present
and equal, case-sensitively, to the requested assets. -/
theorem optEqStr_eq_true (o : Option PyVal) (s : String) :
    optEqStr o s = true ↔ o = some (.vStr s) := by
  cases o with
  | none => simp [optEqStr]
  | some v => cases v <;> simp [optEqStr]

/-- C9: `get_latest_price_json` returns the first record of the batch
whose `from` and `to` fields match the requested assets exactly
(case-sensitively), unchanged; when no record matches it fails with the
`ValueError` naming the pair. -/
theorem get_latest_price_json_first_match
    (prices : List (List (String × PyVal))) (from_asset to_asset : String) :
    get_latest_price_json prices from_asset to_asset =
      (match prices.find? (price_match from_asset to_asset) with
       | some r => .ok r
       | none => .error (.valueError
           ("No price found for pair: " ++ from_asset ++ "/" ++ to_asset))) ∧
    (∀ r, price_match from_asset to_asset r = true ↔
      (lookupKV r "from" = some (.vStr from_asset) ∧
       lookupKV r "to" = some (.vStr to_asset))) := by
  constructor
  · induction prices with
    | nil => rfl
    | cons r rest ih =>
      cases h : price_match from_asset to_asset r with
      | true => simp [get_latest_price_json, List.find?_cons, h]
      | false => simp [get_latest_price_json, List.find?_cons, h, ih]
  · intro r
    simp [price_match, Bool.and_eq_true, optEqStr_eq_true]

/-- Witness for C9: the matching BTC/USD record is returned unchanged;
an empty batch fails with the ValueError naming the pair. -/
theorem get_latest_price_json_first_match_witness :
    get_latest_price_json
      [[("from", .vStr "ETH"), ("to", .vStr "EUR")],
       [("from", .vStr "BTC"), ("to", .vStr "USD"), ("mid", .vFloat 5)]]
      "BTC" "USD" =
      .ok [("from", .vStr "BTC"), ("to", .vStr "USD"), ("mid", .vFloat 5)] ∧
    get_latest_price_json [] "BTC" "USD" =
      .error (.valueError "No price found for pair: BTC/USD") := by
  constructor
  · exact (get_latest_price_json_first_match
      [[("from", .vStr "ETH"), ("to", .vStr "EUR")],
       [("from", .vStr "BTC"), ("to", .vStr "USD"), ("mid", .vFloat 5)]]
      "BTC" "USD").1.trans (by rfl)
  · exact (get_latest_price_json_first_match [] "BTC" "USD").1.trans (by rfl)

/-- `get_price` as a function of the first matching record of the batch. -/
theorem get_price_find_eq (prices : List (List (String × PyVal)))
    (from_currency to_currency : String) :
    get_price prices from_currency to_currency =
      (match prices.find? (price_match from_currency to_currency) with
       | some r => (pyFloat (getKV r "mid" (.vInt 0))).map
           (fun m => (m, getKV r "isMarketOpen" (.vBool false),
                      getKV r "isDayTradingClosed" (.vBool false)))
       | none => .error (.valueError
           ("No price found for pair: " ++ from_currency ++ "/" ++ to_currency))) := by
  induction prices with
  | nil => rfl
  | cons r rest ih =>
    cases h : price_match from_currency to_currency r with
    | true =>
      cases hm : pyFloat (getKV r "mid" (.vInt 0)) <;>
        simp [get_price, List.find?_cons, h, hm, Except.map]
    | false => simp [get_price, List.find?_cons, h, ih]

/-- C10: on the first matching record `get_price` returns the
three-field projection `(float(mid), isMarketOpen, isDayTradingClosed)`,
substituting `0.0` for a missing `mid` and `False` for a missing
`isMarketOpen` or `isDayTradingClosed` rather than failing; with no
matching record it fails with the `ValueError` naming the pair. -/
theorem get_price_projection_defaults
    (prices : List (List (String × PyVal))) (from_currency to_currency : String) :
    (∀ r, prices.find? (price_match from_currency to_currency) = some r →
      get_price prices from_currency to_currency =
        (pyFloat (getKV r "mid" (.vInt 0))).map
          (fun m => (m, getKV r "isMarketOpen" (.vBool false),
                     getKV r "isDayTradingClosed" (.vBool false)))) ∧
    (∀ r, prices.find? (price_match from_currency to_currency) = some r →
      lookupKV r "mid" = none → lookupKV r "isMarketOpen" = none →
      lookupKV r "isDayTradingClosed" = none →
      get_price prices from_currency to_currency =
        .ok (0, .vBool false, .vBool false)) ∧
    (prices.find? (price_match from_currency to_currency) = none →
      get_price prices from_currency to_currency =
        .error (.valueError
          ("No price found for pair: " ++ from_currency ++ "/" ++ to_currency))) := by
  refine ⟨?_, ?_, ?_⟩
  · intro r hr
    rw [get_price_find_eq, hr]
  · intro r hr hmid himo hidtc
    rw [get_price_find_eq, hr]
    simp [getKV, hmid, himo, hidtc, pyFloat, Except.map]
  · intro hnone
    rw [get_price_find_eq, hnone]

/-- Witness for C10: a matching record with all three fields absent
yields `(0, False, False)` instead of failing. -/
theorem get_price_projection_defaults_witness :
    get_price [[("from", .vStr "BTC"), ("to", .vStr "USD")]] "BTC" "USD" =
      .ok (0, .vBool false, .vBool false) := by
  exact (get_price_projection_defaults
    [[("from", .vStr "BTC"), ("to", .vStr "USD")]] "BTC" "USD").2.1
    [("from", .vStr "BTC"), ("to", .vStr "USD")] rfl rfl rfl rfl
